import Mathlib

/-!
Verification of the concurrent dispatch-and-log subsystem of
`load script/spam_script.py`.

The script reads prompts from a text file, starts
`min(MAX_THREADS, len(prompts))` worker threads bound to a shared
`queue.Queue`, enqueues every prompt followed by one `None` termination
marker per worker, and waits on `prompt_q.join()`.  Each worker loops:
dequeue; on `None` call `task_done` and break; otherwise run
`send_prompt` (issue the HTTP call, classify the outcome, append a JSON
record to the output file under `file_lock`) and call `task_done`.

This file gives a shallow embedding of that program:
`sendPrompt` models the pure classification-and-record construction of
`send_prompt` (the HTTP call's outcome is an explicit `NetResult`
argument), and an interleaved small-step relation `Step` on `RunState`
models the main thread's enqueues and the worker loops, with the
record append made atomic, as `file_lock` guarantees in the source.
-/

/-- `MAX_THREADS = 128` from `spam_script.py` line 12. -/
def MAX_THREADS : Nat := 128

/-- The parsed JSON body of a successful response (`resp.json()`):
`eval_count` may be absent, in which case `data.get("eval_count", "")`
yields the empty string. -/
structure JsonData where
  eval_count : Option Nat
deriving DecidableEq

/-- A JSON value as it appears in a field of an output record. -/
inductive JVal where
  | num (q : ℚ)
  | str (s : String)
  | null
  | obj (d : JsonData)
deriving DecidableEq

/-- An HTTP response as seen by `send_prompt`: status code, raw text,
and the result of `resp.json()` (`none` when parsing raises). -/
structure HttpResponse where
  status_code : Nat
  text : String
  json : Option JsonData
deriving DecidableEq

/-- Outcome of the network call `requests.post(..., timeout=300)`:
it returns a response together with the measured elapsed wall time, it
raises `requests.exceptions.Timeout`, or it raises some other exception. -/
inductive NetResult where
  | ok (resp : HttpResponse) (elapsed : ℚ)
  | timeout
  | exn (msg : String)
deriving DecidableEq

/-- One output record, with exactly the fields the script writes. -/
structure RunRecord where
  prompt : String
  start_time_utc : String
  end_time_utc : String
  time_seconds : JVal
  output_tokens : JVal
  response : JVal
deriving DecidableEq

/-- Python's `round(elapsed, 3)` on a rational elapsed time. -/
def round3 (q : ℚ) : ℚ := (round (q * 1000) : ℤ) / 1000

/-- `data.get("eval_count", "")` : the extracted scalar, or `""`. -/
def tokensField (d : JsonData) : JVal :=
  match d.eval_count with
  | some n => .num n
  | none => .str ""

/-- The record construction of `send_prompt` (`spam_script.py` lines
17-78), with the network outcome passed in explicitly.  Branches in
source order: non-200 status; 200 with parseable body; 200 with
unparseable body; timeout; any other exception. -/
def sendPrompt (prompt : String) (net : NetResult) (startS endS : String) : RunRecord :=
  match net with
  | .ok resp elapsed =>
    if resp.status_code ≠ 200 then
      { prompt := prompt, start_time_utc := startS, end_time_utc := endS,
        time_seconds := .str "ERROR", output_tokens := .str "ERROR",
        response := .str resp.text }
    else
      match resp.json with
      | some data =>
        { prompt := prompt, start_time_utc := startS, end_time_utc := endS,
          time_seconds := .num (round3 elapsed), output_tokens := tokensField data,
          response := .obj data }
      | none =>
        { prompt := prompt, start_time_utc := startS, end_time_utc := endS,
          time_seconds := .str "ERROR", output_tokens := .str "ERROR",
          response := .str resp.text }
  | .timeout =>
    { prompt := prompt, start_time_utc := startS, end_time_utc := endS,
      time_seconds := .str "TIMEOUT", output_tokens := .str "TIMEOUT",
      response := .null }
  | .exn e =>
    { prompt := prompt, start_time_utc := startS, end_time_utc := endS,
      time_seconds := .str "ERROR", output_tokens := .str "ERROR",
      response := .str e }

/-- A concrete HTTP 500 response whose body is not valid JSON. -/
def httpErrResp : HttpResponse := { status_code := 500, text := "oops", json := none }

/-- A concrete 200 response whose body fails JSON parsing. -/
def parseErrResp : HttpResponse := { status_code := 200, text := "not json", json := none }

/-- Status of one worker thread in its loop (`worker`, lines 84-91):
waiting on `prompt_q.get()`, executing `send_prompt` on a dequeued
prompt, about to `task_done` a dequeued `None` marker, or exited. -/
inductive WStatus where
  | idle
  | busy (p : String)
  | marker
  | exited
deriving DecidableEq

/-- Global state of a run: the main thread's remaining `put` calls
(`toPut`), the FIFO queue contents, the worker pool, the output log,
and the queue's put / task_done counters (`prompt_q.join()` returns
exactly when they are equal). -/
structure RunState where
  toPut : List (Option String)
  queue : List (Option String)
  workers : List WStatus
  log : List RunRecord
  put : Nat
  done : Nat
deriving DecidableEq

/-- One interleaved step of the system.  The main thread performs its
puts in program order; a worker dequeues the queue head; finishing an
item appends its record atomically (the source holds `file_lock` for
the whole write) and marks the task done; consuming a marker marks the
task done and exits the worker. -/
inductive Step : RunState → RunState → Prop where
  | enqueue (s : RunState) (x : Option String) (rest : List (Option String))
      (h : s.toPut = x :: rest) :
      Step s { s with toPut := rest, queue := s.queue ++ [x], put := s.put + 1 }
  | dequeueItem (s : RunState) (p : String) (q : List (Option String))
      (w₁ w₂ : List WStatus)
      (hw : s.workers = w₁ ++ WStatus.idle :: w₂) (hq : s.queue = some p :: q) :
      Step s { s with queue := q, workers := w₁ ++ WStatus.busy p :: w₂ }
  | dequeueMarker (s : RunState) (q : List (Option String)) (w₁ w₂ : List WStatus)
      (hw : s.workers = w₁ ++ WStatus.idle :: w₂) (hq : s.queue = none :: q) :
      Step s { s with queue := q, workers := w₁ ++ WStatus.marker :: w₂ }
  | finishItem (s : RunState) (p : String) (net : NetResult) (sS eS : String)
      (w₁ w₂ : List WStatus) (hw : s.workers = w₁ ++ WStatus.busy p :: w₂) :
      Step s { s with workers := w₁ ++ WStatus.idle :: w₂,
                      log := s.log ++ [sendPrompt p net sS eS], done := s.done + 1 }
  | finishMarker (s : RunState) (w₁ w₂ : List WStatus)
      (hw : s.workers = w₁ ++ WStatus.marker :: w₂) :
      Step s { s with workers := w₁ ++ WStatus.exited :: w₂, done := s.done + 1 }

/-- Reachability from an initial state by interleaved steps. -/
inductive Reach (init : RunState) : RunState → Prop where
  | refl : Reach init init
  | tail {s t : RunState} : Reach init s → Step s t → Reach init t

/-- State right after `main` starts its workers (line 104-107): the
queue is empty, `numWorkers` idle workers exist, the log was just
truncated, and the main thread still has to put every prompt followed
by one `None` marker per worker (lines 109-115, in program order). -/
def initState (prompts : List String) (numWorkers : Nat) : RunState :=
  { toPut := prompts.map some ++ List.replicate numWorkers none,
    queue := [], workers := List.replicate numWorkers WStatus.idle,
    log := [], put := 0, done := 0 }

/-- Python's `str.strip()`: remove leading and trailing whitespace. -/
def pyStrip (s : String) : String :=
  ⟨((s.data.dropWhile Char.isWhitespace).reverse.dropWhile Char.isWhitespace).reverse⟩

/-- `[line.strip() for line in f if line.strip()]` (line 95). -/
def parsePrompts (lines : List String) : List String :=
  (lines.map pyStrip).filter (fun l => l ≠ "")

/-- The setup phase of `main` (lines 93-107).  `file` is `none` when
the prompt file is missing: the `open` raises, nothing is touched, and
the process exits non-zero (the error value carries the untouched old
log).  Otherwise prompts are parsed, the output log is truncated
(line 101) and `min(MAX_THREADS, len(prompts))` workers are started. -/
def mainSetup (maxThreads : Nat) (file : Option (List String)) (oldLog : List RunRecord) :
    Except (List RunRecord) RunState :=
  match file with
  | none => .error oldLog
  | some lines =>
    .ok (initState (parsePrompts lines) (min maxThreads (parsePrompts lines).length))

/-- The ordinary work items among a list of queue values. -/
def queueItems (l : List (Option String)) : List String := l.filterMap id

/-- How many termination markers a list of queue values holds. -/
def markerCount : List (Option String) → Nat
  | [] => 0
  | none :: rest => markerCount rest + 1
  | some _ :: rest => markerCount rest

/-- The prompts currently being processed by busy workers. -/
def busyList : List WStatus → List String
  | [] => []
  | WStatus.busy p :: ws => p :: busyList ws
  | _ :: ws => busyList ws

/-- How many workers have exited. -/
def exitedCount : List WStatus → Nat
  | [] => 0
  | WStatus.exited :: ws => exitedCount ws + 1
  | _ :: ws => exitedCount ws

/-- How many workers are consuming their termination marker. -/
def heldCount : List WStatus → Nat
  | [] => 0
  | WStatus.marker :: ws => heldCount ws + 1
  | _ :: ws => heldCount ws

/-- Every value in the list is a termination marker. -/
def allMarkers : List (Option String) → Bool
  | [] => true
  | none :: rest => allMarkers rest
  | some _ :: _ => false

/-- No ordinary item occurs after a marker (items-then-markers shape). -/
def noItemAfterMarker : List (Option String) → Bool
  | [] => true
  | some _ :: rest => noItemAfterMarker rest
  | none :: rest => allMarkers rest

/-- The multiset of prompts recorded in the log. -/
def logPrompts (log : List RunRecord) : Multiset String :=
  (log.map RunRecord.prompt : List String)

/-- Conservation invariant of a run over `prompts` with `numWorkers`
workers: every prompt is in exactly one place (logged, being
processed, in the queue, or not yet enqueued); markers are conserved;
`done` counts logged items plus exited workers; `put` counts performed
puts; the queue plus pending puts keep the items-then-markers shape. -/
structure RunInv (prompts : List String) (numWorkers : Nat) (s : RunState) : Prop where
  items : logPrompts s.log + (busyList s.workers : Multiset String) +
      (queueItems s.queue : Multiset String) + (queueItems s.toPut : Multiset String) =
      (prompts : Multiset String)
  markers : exitedCount s.workers + heldCount s.workers +
      markerCount s.queue + markerCount s.toPut = numWorkers
  done_eq : s.done = s.log.length + exitedCount s.workers
  put_eq : s.put + s.toPut.length = prompts.length + numWorkers
  wlen : s.workers.length = numWorkers
  ordered : noItemAfterMarker (s.queue ++ s.toPut) = true

/-- Outcome of one iteration of `worker`'s loop: the thread processed
an item and continues, consumed a marker and exited normally, or was
killed by an exception that escaped `send_prompt` (in which case
`task_done` on line 91 is never reached). -/
inductive WorkerFate where
  | looped (taskDone : Bool)
  | exitedLoop (taskDone : Bool)
  | died
deriving DecidableEq

/-- `send_prompt` including its file append (lines 79-82): the
classification happens inside the try/except, but the append sits
after it, outside any handler, so a failing write raises out of the
function instead of producing a record. -/
def sendPromptWrite (prompt : String) (net : NetResult) (startS endS : String)
    (writeOk : Bool) (log : List RunRecord) : Except String (List RunRecord) :=
  if writeOk then .ok (log ++ [sendPrompt prompt net startS endS])
  else .error "write failed"

/-- One iteration of `worker` (lines 84-91) on dequeued value `x`:
a marker gets `task_done` and breaks the loop; an item runs
`send_prompt` and then `task_done` — unless the write raised, in which
case the exception propagates, no `task_done` happens, and the thread
dies. -/
def workerIter (x : Option String) (net : NetResult) (startS endS : String)
    (writeOk : Bool) (log : List RunRecord) : WorkerFate × List RunRecord :=
  match x with
  | none => (.exitedLoop true, log)
  | some p =>
    match sendPromptWrite p net startS endS writeOk log with
    | .ok logAfter => (.looped true, logAfter)
    | .error _ => (.died, log)

/-- The record produced for prompt "a" when the call times out. -/
def recA : RunRecord := sendPrompt "a" NetResult.timeout "s" "e"

/-- A fully drained one-item, one-worker run: the item's record is
logged, the marker was consumed, and both counters read 2, so
`prompt_q.join()` returns here. -/
def runA : RunState :=
  { toPut := [], queue := [], workers := [WStatus.exited],
    log := [recA], put := 2, done := 2 }

/-- The same run one marker earlier: the single ordinary item is
already logged and marked done, but the worker has not yet dequeued
its termination marker, so `done = 1 < 2 = put` and the join blocks. -/
def stuckA : RunState :=
  { toPut := [], queue := [none], workers := [WStatus.idle],
    log := [recA], put := 2, done := 1 }

theorem sendPrompt_prompt (p : String) (net : NetResult) (sS eS : String) :
    (sendPrompt p net sS eS).prompt = p := by
  cases net with
  | ok resp elapsed =>
    by_cases h : resp.status_code = 200
    · cases hj : resp.json <;> simp [sendPrompt, h, hj]
    · simp [sendPrompt, h]
  | timeout => rfl
  | exn e => rfl

/-- Claim C2 counterexample: a call that completed with an HTTP 500 after a
measured elapsed time of 2 seconds is recorded with
`time_seconds = "ERROR"`, not with the measured elapsed time. -/
theorem httpError_time_is_sentinel :
    (sendPrompt "p" (NetResult.ok httpErrResp 2) "s" "e").time_seconds = JVal.str "ERROR" ∧
    (sendPrompt "p" (NetResult.ok httpErrResp 2) "s" "e").time_seconds ≠ JVal.num (round3 2) := by
  constructor
  · rfl
  · intro h
    simp [sendPrompt, httpErrResp] at h

theorem sentinel_of_error (p : String) (resp : HttpResponse) (elapsed : ℚ)
    (sS eS : String) (h : resp.status_code ≠ 200 ∨ resp.json = none) :
    (sendPrompt p (NetResult.ok resp elapsed) sS eS).time_seconds = JVal.str "ERROR" ∧
    (sendPrompt p (NetResult.ok resp elapsed) sS eS).output_tokens = JVal.str "ERROR" := by
  by_cases hs : resp.status_code = 200
  · have hj : resp.json = none := by
      rcases h with h | h
      · exact absurd hs h
      · exact h
    simp [sendPrompt, hs, hj]
  · simp [sendPrompt, hs]

/-- Claim C2 (amended): for every completed call classified HTTPError
(non-success status) or ParseError (success status, unparseable body),
the record's `time_seconds` and `output_tokens` fields both hold the
sentinel string "ERROR"; the measured elapsed time is discarded. -/
theorem error_variants_time_sentinel (p : String) (resp : HttpResponse) (elapsed : ℚ)
    (sS eS : String) (h : resp.status_code ≠ 200 ∨ resp.json = none) :
    (sendPrompt p (NetResult.ok resp elapsed) sS eS).time_seconds = JVal.str "ERROR" ∧
    (sendPrompt p (NetResult.ok resp elapsed) sS eS).output_tokens = JVal.str "ERROR" :=
  sentinel_of_error p resp elapsed sS eS h

theorem error_variants_time_sentinel_witness :
    ((httpErrResp.status_code ≠ 200 ∨ httpErrResp.json = none) ∧
      (sendPrompt "p" (NetResult.ok httpErrResp 2) "s" "e").time_seconds = JVal.str "ERROR" ∧
      (sendPrompt "p" (NetResult.ok httpErrResp 2) "s" "e").output_tokens = JVal.str "ERROR") :=
  ⟨Or.inl (by decide),
   error_variants_time_sentinel "p" httpErrResp 2 "s" "e" (Or.inl (by decide))⟩

/-- Claim C6: a task whose call exceeds the timeout yields a record with the
sentinel "TIMEOUT" in `time_seconds` and an empty (`null`) `response`
payload. -/
theorem timeout_record_fields (p sS eS : String) :
    (sendPrompt p NetResult.timeout sS eS).time_seconds = JVal.str "TIMEOUT" ∧
    (sendPrompt p NetResult.timeout sS eS).response = JVal.null := by
  exact ⟨rfl, rfl⟩

/-- Claim C10: the `output_tokens` metric field is "TIMEOUT" for the Timeout
variant and "ERROR" for the HTTPError, ParseError and TransportError
variants, and the two sentinels are distinct, so a log reader can tell
timeouts apart from other failures by the metric field alone. -/
theorem metric_distinguishes_timeout (p sS eS msg : String) (resp : HttpResponse)
    (elapsed : ℚ) (h : resp.status_code ≠ 200 ∨ resp.json = none) :
    (sendPrompt p NetResult.timeout sS eS).output_tokens = JVal.str "TIMEOUT" ∧
    (sendPrompt p (NetResult.ok resp elapsed) sS eS).output_tokens = JVal.str "ERROR" ∧
    (sendPrompt p (NetResult.exn msg) sS eS).output_tokens = JVal.str "ERROR" ∧
    JVal.str "TIMEOUT" ≠ JVal.str "ERROR" := by
  refine ⟨rfl, ?_, rfl, by decide⟩
  exact (sentinel_of_error p resp elapsed sS eS h).2

theorem metric_distinguishes_timeout_witness :
    ((parseErrResp.status_code ≠ 200 ∨ parseErrResp.json = none) ∧
      ((sendPrompt "q" NetResult.timeout "s" "e").output_tokens = JVal.str "TIMEOUT" ∧
       (sendPrompt "q" (NetResult.ok parseErrResp 3) "s" "e").output_tokens = JVal.str "ERROR" ∧
       (sendPrompt "q" (NetResult.exn "refused") "s" "e").output_tokens = JVal.str "ERROR" ∧
       JVal.str "TIMEOUT" ≠ JVal.str "ERROR")) :=
  ⟨Or.inr (by decide),
   metric_distinguishes_timeout "q" "s" "e" "refused" parseErrResp 3 (Or.inr (by decide))⟩

theorem queueItems_append (a b : List (Option String)) :
    queueItems (a ++ b) = queueItems a ++ queueItems b :=
  List.filterMap_append a b id

theorem queueItems_nil : queueItems [] = [] := rfl

theorem queueItems_cons_some (p : String) (l : List (Option String)) :
    queueItems (some p :: l) = p :: queueItems l := rfl

theorem queueItems_cons_none (l : List (Option String)) :
    queueItems (none :: l) = queueItems l := rfl

theorem queueItems_mapSome (l : List String) : queueItems (l.map some) = l := by
  induction l with
  | nil => rfl
  | cons a l ih =>
    show a :: queueItems (l.map some) = a :: l
    rw [ih]

theorem queueItems_repNone (n : Nat) : queueItems (List.replicate n none) = [] := by
  induction n with
  | zero => rfl
  | succ n ih => simpa [List.replicate_succ, queueItems_cons_none] using ih

theorem markerCount_nil : markerCount [] = 0 := rfl

theorem markerCount_append (a b : List (Option String)) :
    markerCount (a ++ b) = markerCount a + markerCount b := by
  induction a with
  | nil => simp [markerCount]
  | cons x rest ih => cases x <;> simp [markerCount, ih] <;> omega

theorem markerCount_mapSome (l : List String) : markerCount (l.map some) = 0 := by
  induction l with
  | nil => rfl
  | cons a l ih => simpa [markerCount] using ih

theorem markerCount_repNone (n : Nat) : markerCount (List.replicate n none) = n := by
  induction n with
  | zero => rfl
  | succ n ih => simp [List.replicate_succ, markerCount, ih]

theorem busyList_append (a b : List WStatus) :
    busyList (a ++ b) = busyList a ++ busyList b := by
  induction a with
  | nil => rfl
  | cons w rest ih => cases w <;> simp [busyList, ih]

theorem busyList_repIdle (n : Nat) : busyList (List.replicate n WStatus.idle) = [] := by
  induction n with
  | zero => rfl
  | succ n ih => simpa [List.replicate_succ, busyList] using ih

theorem exitedCount_append (a b : List WStatus) :
    exitedCount (a ++ b) = exitedCount a + exitedCount b := by
  induction a with
  | nil => simp [exitedCount]
  | cons w rest ih => cases w <;> simp [exitedCount, ih] <;> omega

theorem exitedCount_repIdle (n : Nat) : exitedCount (List.replicate n WStatus.idle) = 0 := by
  induction n with
  | zero => rfl
  | succ n ih => simpa [List.replicate_succ, exitedCount] using ih

theorem heldCount_append (a b : List WStatus) :
    heldCount (a ++ b) = heldCount a + heldCount b := by
  induction a with
  | nil => simp [heldCount]
  | cons w rest ih => cases w <;> simp [heldCount, ih] <;> omega

theorem heldCount_repIdle (n : Nat) : heldCount (List.replicate n WStatus.idle) = 0 := by
  induction n with
  | zero => rfl
  | succ n ih => simpa [List.replicate_succ, heldCount] using ih

theorem allMarkers_repNone (n : Nat) : allMarkers (List.replicate n none) = true := by
  induction n with
  | zero => rfl
  | succ n ih => simpa [List.replicate_succ, allMarkers] using ih

theorem noItemAfterMarker_of_allMarkers (l : List (Option String))
    (h : allMarkers l = true) : noItemAfterMarker l = true := by
  cases l with
  | nil => rfl
  | cons x rest =>
    cases x with
    | none => simpa [allMarkers, noItemAfterMarker] using h
    | some p => simp [allMarkers] at h

theorem allMarkers_queueItems (l : List (Option String)) (h : allMarkers l = true) :
    queueItems l = [] := by
  induction l with
  | nil => rfl
  | cons x rest ih =>
    cases x with
    | none => exact ih (by simpa [allMarkers] using h)
    | some p => simp [allMarkers] at h

theorem allMarkers_append_left (a b : List (Option String))
    (h : allMarkers (a ++ b) = true) : allMarkers a = true := by
  induction a with
  | nil => rfl
  | cons x rest ih =>
    cases x with
    | none => exact ih (by simpa [allMarkers] using h)
    | some p => simp [allMarkers] at h

theorem allMarkers_append_right (a b : List (Option String))
    (h : allMarkers (a ++ b) = true) : allMarkers b = true := by
  induction a with
  | nil => simpa using h
  | cons x rest ih =>
    cases x with
    | none => exact ih (by simpa [allMarkers] using h)
    | some p => simp [allMarkers] at h

theorem noItemAfterMarker_init (prompts : List String) (n : Nat) :
    noItemAfterMarker (prompts.map some ++ List.replicate n none) = true := by
  induction prompts with
  | nil => exact noItemAfterMarker_of_allMarkers _ (allMarkers_repNone n)
  | cons a l ih => exact ih

theorem runInv_init (prompts : List String) (numWorkers : Nat) :
    RunInv prompts numWorkers (initState prompts numWorkers) := by
  refine ⟨?_, ?_, ?_, ?_, ?_, ?_⟩
  · simp [initState, logPrompts, busyList_repIdle, queueItems_nil,
      queueItems_append, queueItems_mapSome, queueItems_repNone]
  · simp [initState, markerCount_append, markerCount_mapSome, markerCount_repNone,
      markerCount_nil, exitedCount_repIdle, heldCount_repIdle]
  · simp [initState, exitedCount_repIdle]
  · simp [initState]
  · simp [initState]
  · simpa [initState] using noItemAfterMarker_init prompts numWorkers

theorem busyList_cons_idle (l : List WStatus) :
    busyList (WStatus.idle :: l) = busyList l := rfl

theorem busyList_cons_busy (p : String) (l : List WStatus) :
    busyList (WStatus.busy p :: l) = p :: busyList l := rfl

theorem busyList_cons_marker (l : List WStatus) :
    busyList (WStatus.marker :: l) = busyList l := rfl

theorem busyList_cons_exited (l : List WStatus) :
    busyList (WStatus.exited :: l) = busyList l := rfl

theorem exitedCount_cons_idle (l : List WStatus) :
    exitedCount (WStatus.idle :: l) = exitedCount l := rfl

theorem exitedCount_cons_busy (p : String) (l : List WStatus) :
    exitedCount (WStatus.busy p :: l) = exitedCount l := rfl

theorem exitedCount_cons_marker (l : List WStatus) :
    exitedCount (WStatus.marker :: l) = exitedCount l := rfl

theorem exitedCount_cons_exited (l : List WStatus) :
    exitedCount (WStatus.exited :: l) = exitedCount l + 1 := rfl

theorem heldCount_cons_idle (l : List WStatus) :
    heldCount (WStatus.idle :: l) = heldCount l := rfl

theorem heldCount_cons_busy (p : String) (l : List WStatus) :
    heldCount (WStatus.busy p :: l) = heldCount l := rfl

theorem heldCount_cons_marker (l : List WStatus) :
    heldCount (WStatus.marker :: l) = heldCount l + 1 := rfl

theorem heldCount_cons_exited (l : List WStatus) :
    heldCount (WStatus.exited :: l) = heldCount l := rfl

theorem runInv_step (prompts : List String) (numWorkers : Nat) (s t : RunState)
    (hs : RunInv prompts numWorkers s) (hst : Step s t) : RunInv prompts numWorkers t := by
  obtain ⟨hitems, hmarkers, hdone, hput, hwlen, hord⟩ := hs
  cases hst with
  | enqueue x rest h =>
    rw [h] at hitems hmarkers hput hord
    refine ⟨?_, ?_, ?_, ?_, ?_, ?_⟩
    · cases x with
      | some p =>
        simp only [queueItems_append, queueItems_cons_some, queueItems_cons_none,
          queueItems_nil, ← Multiset.coe_add, ← Multiset.cons_coe, ← Multiset.singleton_add,
          Multiset.coe_nil, add_zero] at hitems ⊢
        rw [← hitems]; abel
      | none =>
        simp only [queueItems_append, queueItems_cons_some, queueItems_cons_none,
          queueItems_nil, ← Multiset.coe_add, ← Multiset.cons_coe, ← Multiset.singleton_add,
          Multiset.coe_nil, add_zero] at hitems ⊢
        rw [← hitems]
    · cases x with
      | some p =>
        simp only [markerCount_append, markerCount, markerCount_nil] at hmarkers ⊢
        omega
      | none =>
        simp only [markerCount_append, markerCount, markerCount_nil] at hmarkers ⊢
        omega
    · exact hdone
    · show s.put + 1 + rest.length = prompts.length + numWorkers
      simp only [List.length_cons] at hput
      omega
    · exact hwlen
    · show noItemAfterMarker ((s.queue ++ [x]) ++ rest) = true
      rw [List.append_assoc]
      exact hord
  | dequeueItem p q w₁ w₂ hw hq =>
    rw [hw] at hitems hmarkers hdone hwlen
    rw [hq] at hitems hmarkers hord
    refine ⟨?_, ?_, ?_, ?_, ?_, ?_⟩
    · simp only [busyList_append, busyList_cons_idle, busyList_cons_busy,
        queueItems_cons_some, ← Multiset.coe_add, ← Multiset.cons_coe,
        ← Multiset.singleton_add] at hitems ⊢
      rw [← hitems]; abel
    · simp only [heldCount_append, heldCount_cons_idle, heldCount_cons_busy,
        exitedCount_append, exitedCount_cons_idle, exitedCount_cons_busy,
        markerCount] at hmarkers ⊢
      omega
    · simp only [exitedCount_append, exitedCount_cons_idle, exitedCount_cons_busy] at hdone ⊢
      omega
    · exact hput
    · simp only [List.length_append, List.length_cons] at hwlen ⊢
      omega
    · show noItemAfterMarker (q ++ s.toPut) = true
      exact hord
  | dequeueMarker q w₁ w₂ hw hq =>
    rw [hw] at hitems hmarkers hdone hwlen
    rw [hq] at hitems hmarkers hord
    refine ⟨?_, ?_, ?_, ?_, ?_, ?_⟩
    · simp only [busyList_append, busyList_cons_idle, busyList_cons_marker,
        queueItems_cons_none] at hitems ⊢
      exact hitems
    · simp only [heldCount_append, heldCount_cons_idle, heldCount_cons_marker,
        exitedCount_append, exitedCount_cons_idle, exitedCount_cons_marker,
        markerCount] at hmarkers ⊢
      omega
    · simp only [exitedCount_append, exitedCount_cons_idle, exitedCount_cons_marker] at hdone ⊢
      omega
    · exact hput
    · simp only [List.length_append, List.length_cons] at hwlen ⊢
      omega
    · show noItemAfterMarker (q ++ s.toPut) = true
      have hall : allMarkers (q ++ s.toPut) = true := by
        simpa [noItemAfterMarker] using hord
      exact noItemAfterMarker_of_allMarkers _ hall
  | finishItem p net sS eS w₁ w₂ hw =>
    rw [hw] at hitems hmarkers hdone hwlen
    refine ⟨?_, ?_, ?_, ?_, ?_, ?_⟩
    · simp only [busyList_append, busyList_cons_idle, busyList_cons_busy, logPrompts,
        List.map_append, List.map_cons, List.map_nil, sendPrompt_prompt,
        ← Multiset.coe_add, ← Multiset.cons_coe, ← Multiset.singleton_add,
        Multiset.coe_nil, add_zero] at hitems ⊢
      rw [← hitems]; abel
    · simp only [heldCount_append, heldCount_cons_idle, heldCount_cons_busy,
        exitedCount_append, exitedCount_cons_idle, exitedCount_cons_busy] at hmarkers ⊢
      omega
    · simp only [exitedCount_append, exitedCount_cons_idle, exitedCount_cons_busy,
        List.length_append, List.length_cons, List.length_nil] at hdone ⊢
      omega
    · exact hput
    · simp only [List.length_append, List.length_cons] at hwlen ⊢
      omega
    · exact hord
  | finishMarker w₁ w₂ hw =>
    rw [hw] at hitems hmarkers hdone hwlen
    refine ⟨?_, ?_, ?_, ?_, ?_, ?_⟩
    · simp only [busyList_append, busyList_cons_marker, busyList_cons_exited] at hitems ⊢
      exact hitems
    · simp only [heldCount_append, heldCount_cons_marker, heldCount_cons_exited,
        exitedCount_append, exitedCount_cons_marker, exitedCount_cons_exited] at hmarkers ⊢
      omega
    · simp only [exitedCount_append, exitedCount_cons_marker,
        exitedCount_cons_exited] at hdone ⊢
      omega
    · exact hput
    · simp only [List.length_append, List.length_cons] at hwlen ⊢
      omega
    · exact hord

theorem runInv_reach (prompts : List String) (numWorkers : Nat) (s : RunState)
    (h : Reach (initState prompts numWorkers) s) : RunInv prompts numWorkers s := by
  induction h with
  | refl => exact runInv_init prompts numWorkers
  | tail hr hst ih => exact runInv_step prompts numWorkers _ _ ih hst

theorem join_state_core (prompts : List String) (numWorkers : Nat) (s : RunState)
    (hinv : RunInv prompts numWorkers s) (hput : s.toPut = []) (hjoin : s.done = s.put) :
    s.log.length = prompts.length ∧ logPrompts s.log = (prompts : Multiset String) ∧
    exitedCount s.workers = numWorkers ∧ heldCount s.workers = 0 ∧
    markerCount s.queue = 0 := by
  obtain ⟨hitems, hmarkers, hdone, hputeq, hwlen, hord⟩ := hinv
  rw [hput] at hitems hmarkers hputeq
  simp only [queueItems_nil, markerCount_nil, List.length_nil, add_zero,
    Multiset.coe_nil] at hitems hmarkers hputeq
  have hcard : s.log.length + ((busyList s.workers).length + (queueItems s.queue).length)
      = prompts.length := by
    have hc := congrArg Multiset.card hitems
    simpa [logPrompts, Multiset.card_add, Multiset.coe_card, List.length_map] using hc
  have hlen : s.log.length = prompts.length := by omega
  have hbl : busyList s.workers = [] := List.length_eq_zero.mp (by omega)
  have hql : queueItems s.queue = [] := List.length_eq_zero.mp (by omega)
  refine ⟨hlen, ?_, by omega, by omega, by omega⟩
  rw [hbl, hql] at hitems
  simpa [Multiset.coe_nil] using hitems

theorem step_log_append (a b : RunState) (hst : Step a b) :
    ∃ r, b.log = a.log ++ r := by
  cases hst with
  | enqueue x rest h => exact ⟨[], by simp⟩
  | dequeueItem p q w₁ w₂ hw hq => exact ⟨[], by simp⟩
  | dequeueMarker q w₁ w₂ hw hq => exact ⟨[], by simp⟩
  | finishItem p net sS eS w₁ w₂ hw => exact ⟨[sendPrompt p net sS eS], rfl⟩
  | finishMarker w₁ w₂ hw => exact ⟨[], by simp⟩

theorem mainSetup_some (maxThreads : Nat) (lines : List String) (oldLog : List RunRecord)
    (init : RunState) (hsetup : mainSetup maxThreads (some lines) oldLog = Except.ok init) :
    init = initState (parsePrompts lines) (min maxThreads (parsePrompts lines).length) := by
  simp only [mainSetup, Except.ok.injEq] at hsetup
  exact hsetup.symm

theorem reach_stuckA : Reach (initState ["a"] 1) stuckA :=
  Reach.tail (Reach.tail (Reach.tail (Reach.tail Reach.refl
    (Step.enqueue _ (some "a") [none] rfl))
    (Step.enqueue _ none [] rfl))
    (Step.dequeueItem _ "a" [none] [] [] rfl rfl))
    (Step.finishItem _ "a" NetResult.timeout "s" "e" [] [] rfl)

theorem reach_runA : Reach (initState ["a"] 1) runA :=
  Reach.tail (Reach.tail reach_stuckA
    (Step.dequeueMarker _ [] [] [] rfl rfl))
    (Step.finishMarker _ [] [] rfl)

/-- Claim C1: for every run over N work items with any worker-pool size,
when the run completes (all puts performed and the join condition
`done = put` reached), the output log contains exactly N records — one
per dequeued item, each written exactly once and atomically (the model's
append is atomic because the source holds `file_lock` for the whole
write), with the multiset of logged prompts equal to the input items, so
no item is dropped and none is recorded twice. -/
theorem run_produces_exactly_N_records (prompts : List String) (numWorkers : Nat)
    (s : RunState) (h : Reach (initState prompts numWorkers) s)
    (hput : s.toPut = []) (hjoin : s.done = s.put) :
    s.log.length = prompts.length ∧ logPrompts s.log = (prompts : Multiset String) :=
  have hcore := join_state_core prompts numWorkers s
    (runInv_reach prompts numWorkers s h) hput hjoin
  ⟨hcore.1, hcore.2.1⟩

theorem run_produces_exactly_N_records_witness :
    (runA.toPut = [] ∧ runA.done = runA.put) ∧
    (runA.log.length = (["a"] : List String).length ∧
      logPrompts runA.log = ((["a"] : List String) : Multiset String)) :=
  ⟨⟨rfl, rfl⟩, run_produces_exactly_N_records ["a"] 1 runA reach_runA rfl rfl⟩

/-- Claim C4 counterexample: in the 1-item, 1-worker run there is a
reachable state where all puts are performed and the single ordinary
item is already durably logged and marked done, yet the join condition
`done = put` is false because the termination marker is still
unconsumed in the queue: `prompt_q.join()` counts the markers among the
unfinished tasks, so the completion wait is not independent of marker
consumption and cannot complete while a marker is still in flight. -/
theorem join_not_independent_of_markers :
    Reach (initState ["a"] 1) stuckA ∧ stuckA.toPut = [] ∧
    stuckA.log.length = 1 ∧ markerCount stuckA.queue = 1 ∧
    ¬ (stuckA.done = stuckA.put) :=
  ⟨reach_stuckA, rfl, rfl, rfl, by decide⟩

/-- Claim C4 (amended): the Dispatcher's completion wait
(`prompt_q.join()`) counts the termination markers among the unfinished
tasks: when it returns, in addition to all ordinary items being done,
every worker has consumed its marker and exited — no worker still holds
a marker and no marker remains in the queue. -/
theorem join_requires_marker_consumption (prompts : List String) (numWorkers : Nat)
    (s : RunState) (h : Reach (initState prompts numWorkers) s)
    (hput : s.toPut = []) (hjoin : s.done = s.put) :
    exitedCount s.workers = numWorkers ∧ heldCount s.workers = 0 ∧
    markerCount s.queue = 0 :=
  (join_state_core prompts numWorkers s
    (runInv_reach prompts numWorkers s h) hput hjoin).2.2

theorem join_requires_marker_consumption_witness :
    (runA.toPut = [] ∧ runA.done = runA.put) ∧
    (exitedCount runA.workers = 1 ∧ heldCount runA.workers = 0 ∧
      markerCount runA.queue = 0) :=
  ⟨⟨rfl, rfl⟩, join_requires_marker_consumption ["a"] 1 runA reach_runA rfl rfl⟩

/-- Claim C7: the main thread enqueues exactly one termination marker
per started worker, and only after all ordinary items (the put sequence
is the items followed by the markers); consequently, in any reachable
state in which a worker can observe a marker at the queue head, every
ordinary item has already been enqueued: none is left among the pending
puts and none sits behind the marker in the queue. -/
theorem markers_enqueued_last (prompts : List String) (numWorkers : Nat)
    (s : RunState) (q : List (Option String))
    (h : Reach (initState prompts numWorkers) s) (hq : s.queue = none :: q) :
    markerCount (initState prompts numWorkers).toPut = numWorkers ∧
    (initState prompts numWorkers).workers.length = numWorkers ∧
    queueItems s.toPut = [] ∧ queueItems q = [] := by
  obtain ⟨hitems, hmarkers, hdone, hputeq, hwlen, hord⟩ :=
    runInv_reach prompts numWorkers s h
  rw [hq] at hord
  have hall : allMarkers (q ++ s.toPut) = true := by
    simpa [List.cons_append, noItemAfterMarker] using hord
  refine ⟨?_, ?_, allMarkers_queueItems _ (allMarkers_append_right _ _ hall),
    allMarkers_queueItems _ (allMarkers_append_left _ _ hall)⟩
  · simp [initState, markerCount_append, markerCount_mapSome, markerCount_repNone]
  · simp [initState]

theorem markers_enqueued_last_witness :
    stuckA.queue = none :: [] ∧
    (markerCount (initState ["a"] 1).toPut = 1 ∧
      (initState ["a"] 1).workers.length = 1 ∧
      queueItems stuckA.toPut = [] ∧ queueItems ([] : List (Option String)) = []) :=
  ⟨rfl, markers_enqueued_last ["a"] 1 stuckA [] reach_stuckA rfl⟩

/-- Claim C8: re-running with the same input leaves the output log with
exactly N records regardless of its prior content: the setup truncates
the log exactly once, before any worker starts (the post-setup state
has an empty log whatever `oldLog` was), every subsequent step only
appends to the log, and a completed run ends with exactly the parsed
item count of records. -/
theorem rerun_truncates_then_appends (maxThreads : Nat) (lines : List String)
    (oldLog : List RunRecord) (init s : RunState)
    (hsetup : mainSetup maxThreads (some lines) oldLog = Except.ok init)
    (h : Reach init s) (hput : s.toPut = []) (hjoin : s.done = s.put) :
    init.log = [] ∧ (∀ a b : RunState, Step a b → ∃ r, b.log = a.log ++ r) ∧
    s.log.length = (parsePrompts lines).length := by
  have hinit := mainSetup_some maxThreads lines oldLog init hsetup
  subst hinit
  refine ⟨rfl, fun a b hst => step_log_append a b hst, ?_⟩
  exact (join_state_core _ _ s (runInv_reach _ _ s h) hput hjoin).1

theorem rerun_truncates_then_appends_witness :
    (mainSetup 128 (some ["a"]) [recA] = Except.ok (initState ["a"] 1) ∧
      runA.toPut = [] ∧ runA.done = runA.put) ∧
    ((initState ["a"] 1).log = [] ∧
      (∀ a b : RunState, Step a b → ∃ r, b.log = a.log ++ r) ∧
      runA.log.length = (parsePrompts ["a"]).length) :=
  ⟨⟨rfl, rfl, rfl⟩,
   rerun_truncates_then_appends 128 ["a"] [recA] (initState ["a"] 1) runA
     rfl reach_runA rfl rfl⟩

/-- Claim C9: for every configured concurrency and non-empty parsed item
list, the setup starts exactly `min(configured, item count)` workers
bound to the shared queue. -/
theorem worker_pool_size (maxThreads : Nat) (lines : List String)
    (oldLog : List RunRecord) (init : RunState) (hne : parsePrompts lines ≠ [])
    (hsetup : mainSetup maxThreads (some lines) oldLog = Except.ok init) :
    init.workers.length = min maxThreads (parsePrompts lines).length := by
  have hinit := mainSetup_some maxThreads lines oldLog init hsetup
  subst hinit
  simp [initState]

theorem worker_pool_size_witness :
    (parsePrompts ["a", "b", "c"] ≠ [] ∧
      mainSetup 2 (some ["a", "b", "c"]) [] =
        Except.ok (initState (parsePrompts ["a", "b", "c"])
          (min 2 (parsePrompts ["a", "b", "c"]).length))) ∧
    (initState (parsePrompts ["a", "b", "c"])
        (min 2 (parsePrompts ["a", "b", "c"]).length)).workers.length =
      min 2 (parsePrompts ["a", "b", "c"]).length :=
  ⟨⟨by decide, rfl⟩,
   worker_pool_size 2 ["a", "b", "c"] [] _ (by decide) rfl⟩

/-- Claim C3 counterexample: an input file whose lines are all blank
yields zero work items, yet the run is not rejected: setup raises no
error (so the process goes on to print its summary and exit zero), and
the previous log content — here one record — is truncated away, so the
output log IS modified. -/
theorem zero_items_not_rejected :
    mainSetup 128 (some ["", "  "]) [recA] = Except.ok (initState [] 0) ∧
    (initState [] 0).log = [] ∧ ([recA] : List RunRecord) ≠ [] ∧
    (initState [] 0).toPut = [] ∧ (initState [] 0).done = (initState [] 0).put := by
  refine ⟨rfl, rfl, by simp, rfl, rfl⟩

/-- Claim C3 (amended): a missing input file is reported before any
worker starts and the process exits non-zero without touching the
output log (the `open` on line 94 raises before the truncation on line
101); but an input yielding zero work items is NOT treated as an error:
setup succeeds, the log is truncated to empty, zero workers are
started, and the join condition holds immediately, so the run prints
its summary and exits zero. -/
theorem config_error_behavior (maxThreads : Nat) (oldLog : List RunRecord)
    (lines : List String) (hz : parsePrompts lines = []) :
    mainSetup maxThreads none oldLog = Except.error oldLog ∧
    mainSetup maxThreads (some lines) oldLog = Except.ok (initState [] 0) ∧
    (initState [] 0).log = [] ∧ (initState [] 0).workers = [] ∧
    (initState [] 0).toPut = [] ∧ (initState [] 0).done = (initState [] 0).put := by
  refine ⟨rfl, ?_, rfl, rfl, rfl, rfl⟩
  simp [mainSetup, hz, initState]

theorem config_error_behavior_witness :
    parsePrompts [""] = [] ∧
    (mainSetup 128 none [recA] = Except.error [recA] ∧
      mainSetup 128 (some [""]) [recA] = Except.ok (initState [] 0) ∧
      (initState [] 0).log = [] ∧ (initState [] 0).workers = [] ∧
      (initState [] 0).toPut = [] ∧ (initState [] 0).done = (initState [] 0).put) :=
  ⟨by decide, config_error_behavior 128 [recA] [""] (by decide)⟩

/-- Claim C5 counterexample: when the storage write fails, the worker
does not survive with a TransportError-class record: `workerIter` on an
ordinary item with a failing write returns `died` — the exception
escapes `send_prompt` (the append on lines 79-82 is outside the
try/except), no record at all is appended, and `task_done` is never
called, so the failure is fatal to the whole worker thread, not merely
to its current task attempt. -/
theorem write_failure_kills_worker :
    workerIter (some "a") NetResult.timeout "s" "e" false [] = (WorkerFate.died, []) ∧
    (workerIter (some "a") NetResult.timeout "s" "e" false []).1 ≠ WorkerFate.looped true := by
  exact ⟨rfl, by decide⟩

/-- Claim C5 (amended): a failing storage write raises out of
`send_prompt` uncaught: the worker thread terminates (not just the
current task attempt), the log is left unchanged — no TransportError or
other record surfaces the failure — and `task_done` is skipped, so the
dispatcher's join can never complete; the process itself (main thread
and the other workers) keeps running. -/
theorem write_failure_propagates (p : String) (net : NetResult) (sS eS : String)
    (log : List RunRecord) :
    workerIter (some p) net sS eS false log = (WorkerFate.died, log) ∧
    sendPromptWrite p net sS eS false log = Except.error "write failed" :=
  ⟨rfl, rfl⟩
